import Mathlib

/-!
Verification of the HR-tech lead-generation pipeline.

Shallow embedding of the signal-processing and opportunity-extraction core:
`src/signal_processor.py`, `src/models.py`, `src/workflows/lead_generator.py`,
`src/llm_service.py`, `src/search_service.py`, `src/scraping_service.py`.
Python strings are Lean `String`s, Python floats are `ℚ` (exact arithmetic),
Python ints are `ℤ` or `ℕ`, raised exceptions are `Except` errors, and
network / LLM / stdlib-parser behaviour is passed in as explicit oracle
parameters so every definition is executable.
-/

/-! ## Python string primitives used by the pipeline -/

/-- Python `str.lower()` (character-wise, as used on the ASCII keyword data). -/
def pyLower (s : String) : String := ⟨s.data.map Char.toLower⟩

/-- Python substring containment `needle in hay` on character lists:
true iff `needle` occurs contiguously in `hay` (the empty needle always occurs). -/
def containsSub (hay needle : List Char) : Bool :=
  needle.isPrefixOf hay ||
    match hay with
    | [] => false
    | _ :: t => containsSub t needle

/-- Worker for Python `str.count`: scans `hay` left to right and counts
non-overlapping occurrences of the non-empty `needle`, jumping past each match.
Structural recursion on a fuel bound (any fuel `≥ hay.length` gives the scan). -/
def countSubGo (needle : List Char) : Nat → List Char → Nat
  | 0, _ => 0
  | _, [] => 0
  | fuel + 1, c :: t =>
    if needle.isPrefixOf (c :: t) then
      1 + countSubGo needle fuel (t.drop (needle.length - 1))
    else
      countSubGo needle fuel t

/-- Python `hay.count(needle)`: non-overlapping occurrence count;
for the empty needle Python returns `len(hay) + 1`. -/
def countSub (hay needle : List Char) : Nat :=
  if needle = [] then hay.length + 1 else countSubGo needle hay.length hay

/-- Python `str.strip()`: drop leading and trailing whitespace. Realized over
the character list so concrete runs reduce. -/
def pyStrip (s : String) : String :=
  ⟨((s.data.dropWhile Char.isWhitespace).reverse.dropWhile Char.isWhitespace).reverse⟩

/-- Python `min(a, b)` on two numbers: `a` if `a ≤ b`, else `b`.
Stated with the executable rational order so concrete runs reduce. -/
def pyMin (a b : ℚ) : ℚ := if a ≤ b then a else b

theorem pyMin_eq_min (a b : ℚ) : pyMin a b = min a b := by
  simp [pyMin, min_def]

/-! ## `SignalProcessor.calculate_relevance_score` (src/signal_processor.py:65-84) -/

/-- Number of keyword list entries whose lowercased text occurs in the
lowercased content (`keyword_matches` in the source). -/
def keywordMatches (content : String) (keywords : List String) : Nat :=
  (keywords.filter (fun k => containsSub (pyLower content).data (pyLower k).data)).length

/-- Total non-overlapping occurrences of all (lowercased) keywords in the
lowercased content (`total_occurrences` in the source). -/
def totalOccurrences (content : String) (keywords : List String) : Nat :=
  (keywords.map (fun k => countSub (pyLower content).data (pyLower k).data)).sum

/-- `SignalProcessor.calculate_relevance_score`: returns 0 for empty content or
empty keyword list; otherwise `min(base_score + occurrence_bonus, 1)` with
`base_score = min(matches/len(keywords), 1)` and
`occurrence_bonus = min(total_occurrences * 0.1, 0.3)`. -/
def calculate_relevance_score (content : String) (keywords : List String) : ℚ :=
  if content = "" ∨ keywords = [] then 0
  else
    let keyword_matches : ℚ := (keywordMatches content keywords : ℚ)
    let base_score : ℚ := pyMin (keyword_matches / (keywords.length : ℚ)) 1
    let occurrence_bonus : ℚ := pyMin ((totalOccurrences content keywords : ℚ) * (1/10)) (3/10)
    pyMin (base_score + occurrence_bonus) 1

/-- `DEFAULT_KEYWORDS` from src/constants.py:46-52. -/
def DEFAULT_KEYWORDS : List String :=
  ["reducing burnout", "improve productivity", "HR tech", "CHRO", "employee engagement"]

/-! ### Facts about the substring scan -/

theorem countSubGo_eq_zero_of_not_contains (needle : List Char) :
    ∀ (fuel : Nat) (hay : List Char), containsSub hay needle = false →
      countSubGo needle fuel hay = 0 := by
  intro fuel
  induction fuel with
  | zero => intro hay _; cases hay <;> rfl
  | succ f ih =>
    intro hay hcon
    cases hay with
    | nil => rfl
    | cons c t =>
      have hcon' : (needle.isPrefixOf (c :: t) || containsSub t needle) = false := hcon
      simp only [Bool.or_eq_false_iff] at hcon'
      have he : countSubGo needle (f + 1) (c :: t) =
          if needle.isPrefixOf (c :: t) then
            1 + countSubGo needle f (t.drop (needle.length - 1))
          else countSubGo needle f t := rfl
      rw [he, if_neg (by simp [hcon'.1])]
      exact ih t hcon'.2

theorem contains_nil_needle (hay : List Char) : containsSub hay [] = true := by
  cases hay <;> rfl

theorem countSub_eq_zero_of_not_contains (hay needle : List Char)
    (h : containsSub hay needle = false) : countSub hay needle = 0 := by
  have hne : needle ≠ [] := by
    intro he
    rw [he, contains_nil_needle] at h
    simp at h
  rw [countSub, if_neg hne]
  exact countSubGo_eq_zero_of_not_contains needle hay.length hay h

theorem keywordMatches_eq_zero_iff (content : String) (keywords : List String) :
    keywordMatches content keywords = 0 ↔
      ∀ k ∈ keywords, containsSub (pyLower content).data (pyLower k).data = false := by
  unfold keywordMatches
  rw [List.length_eq_zero, List.filter_eq_nil_iff]
  constructor
  · intro h k hk
    simpa using h k hk
  · intro h k hk
    simp [h k hk]

theorem totalOccurrences_eq_zero_of_no_match (content : String) (keywords : List String)
    (h : ∀ k ∈ keywords, containsSub (pyLower content).data (pyLower k).data = false) :
    totalOccurrences content keywords = 0 := by
  unfold totalOccurrences
  rw [List.sum_eq_zero]
  intro x hx
  rw [List.mem_map] at hx
  obtain ⟨k, hk, rfl⟩ := hx
  exact countSub_eq_zero_of_not_contains _ _ (h k hk)

unseal Rat.add Rat.mul Rat.inv in
/-- C1, counterexample: with non-empty content `"xyz"` and the non-empty keyword
list `["HR tech"]`, `calculate_relevance_score` returns `0`, refuting the claim
that the score is `0` only when the content or the keyword list is empty. -/
theorem C1_relevance_zero_counterexample :
    calculate_relevance_score "xyz" ["HR tech"] = 0 ∧
      "xyz" ≠ "" ∧ (["HR tech"] : List String) ≠ [] := by
  refine ⟨by decide, by decide, by decide⟩

/-- C1, amended: `calculate_relevance_score` equals
`min(1, min(matches/len(keywords), 1) + min(total_occurrences * 0.1, 0.3))` for
non-empty content and keywords, always lies in `[0, 1]`, and equals `0` iff the
content is empty, the keyword list is empty, or no keyword occurs
case-insensitively in the content. -/
theorem C1_relevance_score_amended (content : String) (keywords : List String) :
    (0 ≤ calculate_relevance_score content keywords ∧
      calculate_relevance_score content keywords ≤ 1) ∧
    (content ≠ "" → keywords ≠ [] →
      calculate_relevance_score content keywords =
        min (min ((keywordMatches content keywords : ℚ) / (keywords.length : ℚ)) 1 +
          min ((totalOccurrences content keywords : ℚ) * (1/10)) (3/10)) 1) ∧
    (calculate_relevance_score content keywords = 0 ↔
      content = "" ∨ keywords = [] ∨
        ∀ k ∈ keywords, containsSub (pyLower content).data (pyLower k).data = false) := by
  have hscore : calculate_relevance_score content keywords =
      if content = "" ∨ keywords = [] then 0 else
        min (min ((keywordMatches content keywords : ℚ) / (keywords.length : ℚ)) 1 +
          min ((totalOccurrences content keywords : ℚ) * (1/10)) (3/10)) 1 := by
    unfold calculate_relevance_score
    by_cases hemp : content = "" ∨ keywords = []
    · rw [if_pos hemp, if_pos hemp]
    · rw [if_neg hemp, if_neg hemp]
      simp only [pyMin_eq_min]
  by_cases hemp : content = "" ∨ keywords = []
  · rw [hscore, if_pos hemp]
    refine ⟨⟨le_refl 0, zero_le_one⟩, fun h1 h2 => ?_, ?_⟩
    · rcases hemp with h | h
      · exact absurd h h1
      · exact absurd h h2
    · exact ⟨fun _ => hemp.imp id Or.inl, fun _ => rfl⟩
  · rw [hscore, if_neg hemp]
    push_neg at hemp
    have hlen : (0 : ℚ) < (keywords.length : ℚ) := by
      have h1 : 0 < keywords.length := List.length_pos.mpr hemp.2
      exact_mod_cast h1
    have hb0 : 0 ≤ min ((keywordMatches content keywords : ℚ) / (keywords.length : ℚ)) 1 :=
      le_min (div_nonneg (Nat.cast_nonneg _) (le_of_lt hlen)) zero_le_one
    have ho0 : 0 ≤ min ((totalOccurrences content keywords : ℚ) * (1/10)) (3/10) :=
      le_min (by positivity) (by norm_num)
    refine ⟨⟨le_min (by linarith) zero_le_one, min_le_right _ _⟩, fun _ _ => rfl, ?_, ?_⟩
    · intro h0
      right; right
      have hsum : min ((keywordMatches content keywords : ℚ) / (keywords.length : ℚ)) 1 +
          min ((totalOccurrences content keywords : ℚ) * (1/10)) (3/10) = 0 := by
        rcases min_eq_iff.mp h0 with ⟨h, _⟩ | ⟨h, _⟩
        · exact h
        · exact absurd h one_ne_zero
      have hbz : min ((keywordMatches content keywords : ℚ) / (keywords.length : ℚ)) 1 = 0 :=
        le_antisymm (by linarith) hb0
      have hmz : (keywordMatches content keywords : ℚ) / (keywords.length : ℚ) = 0 := by
        rcases min_eq_iff.mp hbz with ⟨h, _⟩ | ⟨h, _⟩
        · exact h
        · exact absurd h one_ne_zero
      have hM : keywordMatches content keywords = 0 := by
        rcases div_eq_zero_iff.mp hmz with h | h
        · exact_mod_cast h
        · exact absurd h (ne_of_gt hlen)
      exact (keywordMatches_eq_zero_iff content keywords).mp hM
    · rintro (h | h | h)
      · exact absurd h hemp.1
      · exact absurd h hemp.2
      · have hM := (keywordMatches_eq_zero_iff content keywords).mpr h
        have hT := totalOccurrences_eq_zero_of_no_match content keywords h
        rw [hM, hT]
        norm_num

unseal Rat.add Rat.mul Rat.inv in
/-- C1, witness: the amended formula clause instantiated at concrete non-empty
content and the configured keyword list. -/
theorem C1_relevance_score_amended_witness :
    calculate_relevance_score "CHRO meets CHRO today" DEFAULT_KEYWORDS =
      min (min ((keywordMatches "CHRO meets CHRO today" DEFAULT_KEYWORDS : ℚ) /
        (DEFAULT_KEYWORDS.length : ℚ)) 1 +
        min ((totalOccurrences "CHRO meets CHRO today" DEFAULT_KEYWORDS : ℚ) * (1/10)) (3/10)) 1 :=
  (C1_relevance_score_amended "CHRO meets CHRO today" DEFAULT_KEYWORDS).2.1
    (by decide) (by decide)

/-! ## `Opportunity` (src/models.py:12-65) -/

/-- The `Opportunity` dataclass fields (src/models.py:15-24). -/
structure Opportunity where
  title : String
  company : String
  person : String
  email : String
  url : String
  date : String
  content : String
  relevance_score : ℚ
  signal_type : ℤ
  source : String
deriving DecidableEq, Repr

/-- `Opportunity.__post_init__` validation (src/models.py:26-35) as a guarded
constructor: a `ValueError` raise is an `Except.error`. Python truthiness of a
string is non-emptiness. -/
def mkOpportunity (title company person email url date content : String)
    (relevance_score : ℚ) (signal_type : ℤ) (source : String) :
    Except String Opportunity :=
  if title = "" ∨ company = "" then
    .error "Title and company are required"
  else if ¬ (0 ≤ relevance_score ∧ relevance_score ≤ 1) then
    .error "Relevance score must be between 0 and 1"
  else if ¬ (1 ≤ signal_type ∧ signal_type ≤ 6) then
    .error "Signal type must be between 1 and 6"
  else
    .ok ⟨title, company, person, email, url, date, content,
      relevance_score, signal_type, source⟩

/-- C2: `Opportunity` construction succeeds exactly when the title and company
are non-empty, the relevance score lies in `[0, 1]`, and the signal type lies
in `{1..6}`; on any violation it fails with a validation error and no record
is produced. -/
theorem C2_opportunity_validation (title company person email url date content : String)
    (relevance_score : ℚ) (signal_type : ℤ) (source : String) :
    (∃ o, mkOpportunity title company person email url date content
        relevance_score signal_type source = .ok o) ↔
      (title ≠ "" ∧ company ≠ "" ∧
        0 ≤ relevance_score ∧ relevance_score ≤ 1 ∧
        1 ≤ signal_type ∧ signal_type ≤ 6) := by
  unfold mkOpportunity
  by_cases h1 : title = "" ∨ company = ""
  · rw [if_pos h1]
    constructor
    · rintro ⟨o, ho⟩; cases ho
    · rintro ⟨ht, hc, _⟩
      rcases h1 with h | h
      · exact absurd h ht
      · exact absurd h hc
  · rw [if_neg h1]
    push_neg at h1
    by_cases h2 : 0 ≤ relevance_score ∧ relevance_score ≤ 1
    · rw [if_neg (not_not_intro h2)]
      by_cases h3 : 1 ≤ signal_type ∧ signal_type ≤ 6
      · rw [if_neg (not_not_intro h3)]
        constructor
        · intro _
          exact ⟨h1.1, h1.2, h2.1, h2.2, h3.1, h3.2⟩
        · intro _
          exact ⟨_, rfl⟩
      · rw [if_pos h3]
        constructor
        · intro h; cases h with | intro o ho => cases ho
        · rintro ⟨_, _, _, _, hs1, hs2⟩
          exact absurd ⟨hs1, hs2⟩ h3
    · rw [if_pos h2]
      constructor
      · intro h; cases h with | intro o ho => cases ho
      · rintro ⟨_, _, hr1, hr2, _⟩
        exact absurd ⟨hr1, hr2⟩ h2

/-! ## `Opportunity.to_dict` / `Opportunity.from_dict` (src/models.py:37-65) -/

/-- A Python dict value as stored in the CSV-export dictionary. -/
inductive PyVal where
  | s (v : String)
  | q (v : ℚ)
  | i (v : ℤ)
deriving DecidableEq, Repr

/-- A Python dict with string keys, as an association list. -/
def PyDict := List (String × PyVal)

/-- Python `data.get(key, default)`. -/
def dget (d : PyDict) (k : String) (dflt : PyVal) : PyVal :=
  match d.find? (fun p => p.1 == k) with
  | some p => p.2
  | none => dflt

/-- A string-typed field read: `from_dict` passes dict values straight into the
string fields, so a non-string value is off the round-trip contract. -/
def expectStr : PyVal → Except String String
  | .s v => .ok v
  | _ => .error "expected str"

/-- Python `float(x)` on a dict value: floats pass through, ints widen. -/
def pyFloat : PyVal → Except String ℚ
  | .q v => .ok v
  | .i v => .ok (v : ℚ)
  | .s _ => .error "float() on str"

/-- Python `int(x)` on a dict value: ints pass through, floats truncate toward
zero. -/
def pyInt : PyVal → Except String ℤ
  | .i v => .ok v
  | .q v => .ok (if 0 ≤ v then v.floor else v.ceil)
  | .s _ => .error "int() on str"

/-- `Opportunity.to_dict` (src/models.py:37-49): the CSV projection; note there
is no `Content` key. -/
def to_dict (o : Opportunity) : PyDict :=
  [("Title", .s o.title), ("Company", .s o.company), ("Person", .s o.person),
   ("Email", .s o.email), ("URL", .s o.url), ("Date", .s o.date),
   ("Relevance Score", .q o.relevance_score), ("Signal Type", .i o.signal_type),
   ("Source", .s o.source)]

/-- `Opportunity.from_dict` (src/models.py:51-65): reads each key with its
default, converts score with `float` and signal type with `int`, and constructs
through the validating constructor. -/
def from_dict (d : PyDict) : Except String Opportunity := do
  let title ← expectStr (dget d "Title" (.s ""))
  let company ← expectStr (dget d "Company" (.s ""))
  let person ← expectStr (dget d "Person" (.s ""))
  let email ← expectStr (dget d "Email" (.s ""))
  let url ← expectStr (dget d "URL" (.s ""))
  let date ← expectStr (dget d "Date" (.s ""))
  let content ← expectStr (dget d "Content" (.s ""))
  let relevance_score ← pyFloat (dget d "Relevance Score" (.i 0))
  let signal_type ← pyInt (dget d "Signal Type" (.i 1))
  mkOpportunity title company person email url date content
    relevance_score signal_type (← expectStr (dget d "Source" (.s "")))

/-- C10: for a valid `Opportunity`, `from_dict (to_dict o)` succeeds and
reproduces every field except `content`, which comes back empty because
`to_dict` emits no `Content` key. -/
theorem C10_round_trip_drops_content (o : Opportunity)
    (h : o.title ≠ "" ∧ o.company ≠ "" ∧
      0 ≤ o.relevance_score ∧ o.relevance_score ≤ 1 ∧
      1 ≤ o.signal_type ∧ o.signal_type ≤ 6) :
    from_dict (to_dict o) = .ok { o with content := "" } ∧
      (to_dict o).find? (fun p => p.1 == "Content") = none := by
  obtain ⟨ht, hc, hr0, hr1, hs1, hs6⟩ := h
  have key : from_dict (to_dict o) =
      mkOpportunity o.title o.company o.person o.email o.url o.date ""
        o.relevance_score o.signal_type o.source := rfl
  refine ⟨?_, rfl⟩
  rw [key]
  unfold mkOpportunity
  rw [if_neg (by push_neg; exact ⟨ht, hc⟩),
    if_neg (not_not_intro ⟨hr0, hr1⟩),
    if_neg (not_not_intro ⟨hs1, hs6⟩)]

/-- C10, witness: the round trip at a concrete valid opportunity. -/
theorem C10_round_trip_witness :
    from_dict (to_dict ⟨"t", "c", "p", "e", "u", "d", "body", 1, 1, "s"⟩) =
      .ok ⟨"t", "c", "p", "e", "u", "d", "", 1, 1, "s"⟩ :=
  (C10_round_trip_drops_content ⟨"t", "c", "p", "e", "u", "d", "body", 1, 1, "s"⟩
    (by refine ⟨by decide, by decide, by decide, by decide, by decide, by decide⟩)).1

/-! ## `LeadGenerator.filter_and_deduplicate` (src/workflows/lead_generator.py:92-115) -/

/-- The dedup key `(opp.company.lower(), opp.person.lower())`. -/
def lkey (o : Opportunity) : String × String := (pyLower o.company, pyLower o.person)

/-- The dedup pass: first occurrence of each lower-cased (company, person) key
is kept, iterating in input order, with `seen` the set of keys already kept. -/
def dedupe : List Opportunity → List (String × String) → List Opportunity
  | [], _ => []
  | o :: rest, seen =>
    if lkey o ∈ seen then dedupe rest seen
    else o :: dedupe rest (lkey o :: seen)

/-- The comparison used by `filtered.sort(key=lambda x: x.relevance_score,
reverse=True)`: `a` may precede `b` iff `b.relevance_score ≤ a.relevance_score`. -/
def scoreDescLe (a b : Opportunity) : Bool :=
  decide (b.relevance_score ≤ a.relevance_score)

/-- `LeadGenerator.filter_and_deduplicate`: dedup by lower-cased
(company, person) with first-seen-wins, then a stable descending sort on
`relevance_score` (Python `list.sort` is stable; `List.mergeSort` is the stable
sort of the embedding). The early return for an empty input list coincides with
the general path. -/
def filter_and_deduplicate (opportunities : List Opportunity) : List Opportunity :=
  (dedupe opportunities []).mergeSort scoreDescLe

theorem scoreDescLe_trans (a b c : Opportunity) :
    scoreDescLe a b → scoreDescLe b c → scoreDescLe a c := by
  simp only [scoreDescLe, decide_eq_true_eq]
  intro h1 h2
  exact le_trans h2 h1

theorem scoreDescLe_total (a b : Opportunity) :
    scoreDescLe a b || scoreDescLe b a := by
  simp only [scoreDescLe, Bool.or_eq_true, decide_eq_true_eq]
  exact le_total b.relevance_score a.relevance_score

theorem dedupe_mem (o : Opportunity) :
    ∀ (l : List Opportunity) (seen : List (String × String)), o ∈ dedupe l seen →
      lkey o ∉ seen ∧ l.find? (fun x => lkey x == lkey o) = some o := by
  intro l
  induction l with
  | nil => intro seen h; cases h
  | cons a rest ih =>
    intro seen h
    rw [dedupe] at h
    by_cases hs : lkey a ∈ seen
    · rw [if_pos hs] at h
      obtain ⟨hnot, hfind⟩ := ih seen h
      have hne : lkey a ≠ lkey o := fun he => hnot (he ▸ hs)
      refine ⟨hnot, ?_⟩
      rw [List.find?_cons_of_neg _ (by simpa using hne)]
      exact hfind
    · rw [if_neg hs] at h
      rcases List.mem_cons.mp h with rfl | h'
      · exact ⟨hs, by rw [List.find?_cons_of_pos _ (by simp)]⟩
      · obtain ⟨hnot, hfind⟩ := ih _ h'
        have hne : lkey a ≠ lkey o := by
          intro he
          exact hnot (he ▸ List.mem_cons_self _ _)
        refine ⟨fun hmem => hnot (List.mem_cons_of_mem _ hmem), ?_⟩
        rw [List.find?_cons_of_neg _ (by simpa using hne)]
        exact hfind

theorem dedupe_covers (x : Opportunity) :
    ∀ (l : List Opportunity) (seen : List (String × String)), x ∈ l →
      lkey x ∈ seen ∨ ∃ o ∈ dedupe l seen, lkey o = lkey x := by
  intro l
  induction l with
  | nil => intro seen h; cases h
  | cons a rest ih =>
    intro seen hx
    rw [dedupe]
    by_cases hs : lkey a ∈ seen
    · rw [if_pos hs]
      rcases List.mem_cons.mp hx with rfl | h'
      · exact Or.inl hs
      · exact ih seen h'
    · rw [if_neg hs]
      rcases List.mem_cons.mp hx with rfl | h'
      · exact Or.inr ⟨_, List.mem_cons_self _ _, rfl⟩
      · rcases ih (lkey a :: seen) h' with hmem | ⟨o, ho, hk⟩
        · rcases List.mem_cons.mp hmem with he | hmem'
          · exact Or.inr ⟨a, List.mem_cons_self _ _, he.symm⟩
          · exact Or.inl hmem'
        · exact Or.inr ⟨o, List.mem_cons_of_mem _ ho, hk⟩

theorem dedupe_pairwise_keys :
    ∀ (l : List Opportunity) (seen : List (String × String)),
      (dedupe l seen).Pairwise (fun a b => lkey a ≠ lkey b) := by
  intro l
  induction l with
  | nil => intro seen; exact List.Pairwise.nil
  | cons a rest ih =>
    intro seen
    rw [dedupe]
    by_cases hs : lkey a ∈ seen
    · rw [if_pos hs]; exact ih seen
    · rw [if_neg hs]
      refine List.Pairwise.cons ?_ (ih _)
      intro b hb
      have := (dedupe_mem b rest _ hb).1
      intro he
      exact this (he ▸ List.mem_cons_self _ _)

/-- C3: `filter_and_deduplicate` keeps exactly one opportunity per lower-cased
(company, person) key — the first one in input order — and sorts the survivors
so relevance scores are non-increasing, with tied scores keeping their
dedupe-arrival relative order (stability of the sort). -/
theorem C3_filter_and_deduplicate_spec (l : List Opportunity) :
    ((filter_and_deduplicate l).Pairwise (fun a b => lkey a ≠ lkey b)) ∧
    (∀ o ∈ filter_and_deduplicate l,
      l.find? (fun x => lkey x == lkey o) = some o) ∧
    (∀ x ∈ l, ∃ o ∈ filter_and_deduplicate l, lkey o = lkey x) ∧
    ((filter_and_deduplicate l).Pairwise
      (fun a b => b.relevance_score ≤ a.relevance_score)) ∧
    (∀ q : ℚ,
      (filter_and_deduplicate l).filter (fun o => o.relevance_score == q) =
        (dedupe l []).filter (fun o => o.relevance_score == q)) := by
  have hperm : (filter_and_deduplicate l).Perm (dedupe l []) :=
    List.mergeSort_perm (dedupe l []) scoreDescLe
  refine ⟨?_, ?_, ?_, ?_, ?_⟩
  · exact (hperm.pairwise_iff (fun h he => h he.symm)).mpr (dedupe_pairwise_keys l [])
  · intro o ho
    exact (dedupe_mem o l [] (hperm.mem_iff.mp ho)).2
  · intro x hx
    rcases dedupe_covers x l [] hx with hmem | ⟨o, ho, hk⟩
    · cases hmem
    · exact ⟨o, hperm.mem_iff.mpr ho, hk⟩
  · have hs := List.sorted_mergeSort scoreDescLe_trans scoreDescLe_total (dedupe l [])
    exact hs.imp (fun h => by simpa [scoreDescLe] using h)
  · intro q
    have hcPairwise :
        ((dedupe l []).filter (fun o => o.relevance_score == q)).Pairwise
          (fun a b => scoreDescLe a b = true) := by
      apply List.pairwise_of_forall_mem_list
      intro a ha b hb
      have ha' : a.relevance_score = q := by
        simpa using (List.mem_filter.mp ha).2
      have hb' : b.relevance_score = q := by
        simpa using (List.mem_filter.mp hb).2
      simp [scoreDescLe, ha', hb']
    have hsub2 :
        List.Sublist ((dedupe l []).filter (fun o => o.relevance_score == q))
          (filter_and_deduplicate l) :=
      List.sublist_mergeSort scoreDescLe_trans scoreDescLe_total hcPairwise
        (List.filter_sublist _)
    have hself :
        ((dedupe l []).filter (fun o => o.relevance_score == q)).filter
          (fun o => o.relevance_score == q) =
          (dedupe l []).filter (fun o => o.relevance_score == q) :=
      List.filter_eq_self.mpr (fun a ha => (List.mem_filter.mp ha).2)
    have hsub3 :
        List.Sublist ((dedupe l []).filter (fun o => o.relevance_score == q))
          ((filter_and_deduplicate l).filter (fun o => o.relevance_score == q)) := by
      have := hsub2.filter (fun o => o.relevance_score == q)
      rwa [hself] at this
    have hlen :
        ((filter_and_deduplicate l).filter (fun o => o.relevance_score == q)).length =
          ((dedupe l []).filter (fun o => o.relevance_score == q)).length :=
      (hperm.filter _).length_eq
    exact (hsub3.eq_of_length hlen.symm).symm

/-! ## `LLMService` (src/llm_service.py)

The LLM client (`self.llm_client.invoke`) is modelled as an oracle: for a
single call, an `Option String` (`some content` = a response carrying a
`content` attribute, `none` = an exception or invalid response); for the
connection-test loop, a `ℕ → Bool` giving each probe attempt's outcome. -/

/-- `LLMStatus` (src/llm_service.py:23-29). -/
inductive LLMStatus where
  | healthy
  | degraded
  | failed
  | unavailable
deriving DecidableEq, Repr

/-- The mutable service state touched by the inference paths
(src/llm_service.py:50-56). -/
structure LLMState where
  status : LLMStatus
  retry_count : ℕ
  max_retries : ℕ
  retry_delay : ℕ
  timeout : ℕ
deriving DecidableEq, Repr

/-- The state as set up by `__init__` before `_initialize_service` runs:
UNAVAILABLE, `max_retries=3`, `retry_delay=2`, `timeout=30`. -/
def initial_llm_state : LLMState := ⟨.unavailable, 0, 3, 2, 30⟩

/-- `self.fallback_responses.get(request_type, "Service temporarily
unavailable")` (src/llm_service.py:64-69, 214-219). -/
def fallback_responses (request_type : String) : String :=
  if request_type = "email_finder" then "Manual validation needed"
  else if request_type = "content_parser" then
    "Content parsing failed - manual review required"
  else if request_type = "relevance_scorer" then
    "Unable to score relevance - manual review required"
  else "Service temporarily unavailable"

/-- The `try` body of `invoke_sync`: a valid response yields its stripped
content, everything else (exception, falsy response, missing `content`)
raises. -/
def invoke_sync_try (client : Option String) : Except String String :=
  match client with
  | some content => .ok (pyStrip content)
  | none => .error "LLM sync call failed"

/-- Result of one `invoke_sync` call: returned text, state afterwards, and how
many LLM-client calls were made. -/
structure SyncResult where
  result : String
  state : LLMState
  calls : ℕ
deriving DecidableEq, Repr

/-- `LLMService.invoke_sync` (src/llm_service.py:261-280): in FAILED state
return the category fallback without touching the client; otherwise make one
call, returning stripped content on success, and on any failure set the status
to DEGRADED and return the category fallback. The `except` clause catches every
exception, so the function always returns. -/
def invoke_sync (st : LLMState) (client : Option String)
    (prompt request_type : String) : SyncResult :=
  if st.status = .failed then
    ⟨fallback_responses request_type, st, 0⟩
  else
    match invoke_sync_try client with
    | .ok content => ⟨content, st, 1⟩
    | .error _ => ⟨fallback_responses request_type, { st with status := .degraded }, 1⟩

/-- Result of `_test_connection`: state afterwards, whether it raised, probe
calls made, and the back-off sleeps performed (in seconds, in order). -/
structure ConnResult where
  state : LLMState
  raised : Bool
  calls : ℕ
  sleeps : List ℕ
deriving DecidableEq, Repr

/-- The `for attempt in range(max_retries)` loop of `_test_connection`
(src/llm_service.py:96-120), structurally on the remaining attempts: a
successful probe sets HEALTHY and resets `retry_count`; the last failing
attempt sets FAILED and re-raises; earlier failures sleep
`retry_delay * 2^attempt`. -/
def test_connection_go (st : LLMState) (client : ℕ → Bool) :
    ℕ → ℕ → ConnResult
  | _, 0 => ⟨st, false, 0, []⟩
  | attempt, r + 1 =>
    if client attempt then
      ⟨{ st with status := .healthy, retry_count := 0 }, false, 1, []⟩
    else if r = 0 then
      ⟨{ st with status := .failed }, true, 1, []⟩
    else
      let rest := test_connection_go st client (attempt + 1) r
      ⟨rest.state, rest.raised, rest.calls + 1,
        st.retry_delay * 2 ^ attempt :: rest.sleeps⟩

/-- `LLMService._test_connection` (src/llm_service.py:96-120). -/
def test_connection (st : LLMState) (client : ℕ → Bool) : ConnResult :=
  test_connection_go st client 0 st.max_retries

/-- The Ollama configuration read by `_initialize_service`
(src/llm_service.py:78-86). -/
structure OllamaConfig where
  model : String
  base_url : String
  max_retries : ℕ
  retry_delay : ℕ
  timeout : ℕ
deriving DecidableEq, Repr

/-- `LLMService._initialize_service` (src/llm_service.py:74-94): `config =
none` models `get_ollama_config` raising, `ctor_ok = false` models the client
constructor raising. Every exception is caught and turns the status FAILED —
the constructor itself never raises, so this is a total function to a state. -/
def init_service (config : Option OllamaConfig) (ctor_ok : Bool)
    (client : ℕ → Bool) : LLMState :=
  match config with
  | none => { initial_llm_state with status := .failed }
  | some cfg =>
    let st : LLMState :=
      { initial_llm_state with
        max_retries := cfg.max_retries
        retry_delay := cfg.retry_delay
        timeout := cfg.timeout }
    if ctor_ok then
      let res := test_connection st client
      if res.raised then { res.state with status := .failed } else res.state
    else
      { st with status := .failed }

/-- `LLMService._attempt_recovery` (src/llm_service.py:205-212) as its net
effect on the state when entered in FAILED status: a successful probe of
`_test_connection` leaves HEALTHY with `retry_count = 0`; a failed one leaves
FAILED (the raise is swallowed). -/
def attempt_recovery (st : LLMState) (probe_ok : Bool) : LLMState :=
  if probe_ok then { st with status := .healthy, retry_count := 0 }
  else { st with status := .failed }

/-- An `LLMResponse` together with the state afterwards and the observable
effects of `_call_llm_with_retry`. -/
structure RetryResult where
  content : String
  success : Bool
  retry_count : ℕ
  fallback_used : Bool
  state : LLMState
  calls : ℕ
  sleeps : List ℕ
deriving DecidableEq, Repr

/-- The `for attempt in range(max_retries)` loop of `_call_llm_with_retry`
(src/llm_service.py:170-203): in FAILED state first run the recovery probe and
serve the fallback if still FAILED; otherwise call the client, returning
stripped content on success; on failure sleep `retry_delay * 2^attempt` unless
it was the last attempt, which sets FAILED and serves the fallback. `none`
models the Python function falling off the loop (only when `max_retries = 0`). -/
def call_llm_go (call : ℕ → Option String) (probe : ℕ → Bool)
    (request_type : String) (delay : ℕ) :
    LLMState → ℕ → ℕ → Option RetryResult
  | _, _, 0 => none
  | st, attempt, r + 1 =>
    let st1 := if st.status = .failed then attempt_recovery st (probe attempt) else st
    if st1.status = .failed then
      some ⟨fallback_responses request_type, false, 0, true, st1, 0, []⟩
    else
      match call attempt with
      | some content => some ⟨pyStrip content, true, attempt, false, st1, 1, []⟩
      | none =>
        if r = 0 then
          some ⟨fallback_responses request_type, false, 0, true,
            { st1 with status := .failed }, 1, []⟩
        else
          match call_llm_go call probe request_type delay st1 (attempt + 1) r with
          | none => none
          | some res =>
            some { res with
              calls := res.calls + 1
              sleeps := delay * 2 ^ attempt :: res.sleeps }

/-- `LLMService._call_llm_with_retry` (src/llm_service.py:170-203). -/
def call_llm_with_retry (st : LLMState) (call : ℕ → Option String)
    (probe : ℕ → Bool) (request_type : String) : Option RetryResult :=
  call_llm_go call probe request_type st.retry_delay st 0 st.max_retries

theorem sleeps_range_succ (delay attempt n : ℕ) :
    (List.range (n + 1)).map (fun i => delay * 2 ^ (attempt + i)) =
      delay * 2 ^ attempt ::
        (List.range n).map (fun i => delay * 2 ^ (attempt + 1 + i)) := by
  rw [List.range_succ_eq_map, List.map_cons, List.map_map]
  refine congrArg₂ _ (by rw [Nat.add_zero]) ?_
  refine List.map_congr_left ?_
  intro i _
  simp only [Function.comp_apply, Nat.succ_eq_add_one]
  rw [Nat.add_comm i 1, ← Nat.add_assoc]

theorem test_connection_go_all_fail (st : LLMState) :
    ∀ (r attempt : ℕ),
      test_connection_go st (fun _ => false) attempt (r + 1) =
        ⟨{ st with status := .failed }, true, r + 1,
          (List.range r).map (fun i => st.retry_delay * 2 ^ (attempt + i))⟩ := by
  intro r
  induction r with
  | zero => intro attempt; rfl
  | succ n ih =>
    intro attempt
    rw [test_connection_go]
    rw [if_neg (by simp), if_neg (Nat.succ_ne_zero n), ih (attempt + 1)]
    rw [sleeps_range_succ]

theorem call_llm_go_all_fail (probe : ℕ → Bool) (request_type : String)
    (delay : ℕ) (st : LLMState) (h : st.status ≠ .failed) :
    ∀ (r attempt : ℕ),
      call_llm_go (fun _ => none) probe request_type delay st attempt (r + 1) =
        some ⟨fallback_responses request_type, false, 0, true,
          { st with status := .failed }, r + 1,
          (List.range r).map (fun i => delay * 2 ^ (attempt + i))⟩ := by
  intro r
  induction r with
  | zero =>
    intro attempt
    rw [call_llm_go]
    simp only [if_neg h]
    rw [if_pos trivial]
    rfl
  | succ n ih =>
    intro attempt
    rw [call_llm_go]
    simp only [if_neg h]
    rw [if_neg (Nat.succ_ne_zero n), ih (attempt + 1)]
    rw [sleeps_range_succ]

/-- C4, counterexample: `invoke_sync` contradicts the claimed retry/recovery
behaviour at concrete inputs. In HEALTHY state with a persistently failing
client it makes exactly one attempt (not `max_retries = 3`), transitions to
DEGRADED (not FAILED), and returns the category fallback; in FAILED state with
a perfectly healthy client it makes no recovery probe and no call at all,
returning the fallback immediately. -/
theorem C4_invoke_sync_counterexample :
    (invoke_sync { initial_llm_state with status := .healthy } none
        "prompt" "email_finder" =
      ⟨"Manual validation needed",
        { initial_llm_state with status := .degraded }, 1⟩) ∧
    LLMStatus.degraded ≠ LLMStatus.failed ∧
    ({ initial_llm_state with status := LLMStatus.healthy } : LLMState).max_retries = 3 ∧
    (invoke_sync { initial_llm_state with status := .failed } (some "a real answer")
        "prompt" "email_finder" =
      ⟨"Manual validation needed", { initial_llm_state with status := .failed }, 0⟩) := by
  exact ⟨by decide, by decide, by decide, by decide⟩

/-- C4, amended: `invoke_sync` is a single-attempt path — in FAILED state it
serves the category fallback with no client call and no recovery probe, and
otherwise makes exactly one call, returning stripped content on success and
setting DEGRADED plus returning the fallback on failure. The claimed behaviour
(up to `max_retries` attempts with back-off `retry_delay * 2^attempt`, FAILED
on exhaustion, and a recovery probe when FAILED) belongs to
`_call_llm_with_retry`, the queued asynchronous path. -/
theorem C4_infer_amended (st : LLMState) (prompt request_type : String)
    (call : ℕ → Option String) (probe : ℕ → Bool) :
    (st.status = .failed →
      ∀ client, invoke_sync st client prompt request_type =
        ⟨fallback_responses request_type, st, 0⟩) ∧
    (st.status ≠ .failed →
      invoke_sync st none prompt request_type =
        ⟨fallback_responses request_type, { st with status := .degraded }, 1⟩ ∧
      ∀ c, invoke_sync st (some c) prompt request_type = ⟨pyStrip c, st, 1⟩) ∧
    (st.status ≠ .failed → 1 ≤ st.max_retries →
      call_llm_with_retry st (fun _ => none) probe request_type =
        some ⟨fallback_responses request_type, false, 0, true,
          { st with status := .failed }, st.max_retries,
          (List.range (st.max_retries - 1)).map
            (fun i => st.retry_delay * 2 ^ i)⟩) ∧
    (st.status = .failed → 1 ≤ st.max_retries → probe 0 = true →
      ∀ c, call 0 = some c →
        call_llm_with_retry st call probe request_type =
          some ⟨pyStrip c, true, 0, false,
            { st with status := .healthy, retry_count := 0 }, 1, []⟩) := by
  refine ⟨?_, ?_, ?_, ?_⟩
  · intro hf client
    unfold invoke_sync
    rw [if_pos hf]
  · intro hnf
    constructor
    · unfold invoke_sync
      rw [if_neg hnf]
      rfl
    · intro c
      unfold invoke_sync
      rw [if_neg hnf]
      rfl
  · intro hnf hmr
    unfold call_llm_with_retry
    obtain ⟨r, hr⟩ : ∃ r, st.max_retries = r + 1 :=
      ⟨st.max_retries - 1, (Nat.succ_pred_eq_of_pos hmr).symm⟩
    rw [hr, call_llm_go_all_fail probe request_type st.retry_delay st hnf r 0]
    simp only [hr, Nat.add_sub_cancel, Nat.zero_add]
  · intro hf hmr hp c hc
    unfold call_llm_with_retry
    obtain ⟨r, hr⟩ : ∃ r, st.max_retries = r + 1 :=
      ⟨st.max_retries - 1, (Nat.succ_pred_eq_of_pos hmr).symm⟩
    rw [hr, call_llm_go]
    simp only [if_pos hf, attempt_recovery, hp, if_pos trivial]
    rw [if_neg (by simp), hc]
    simp only [← hr]

/-- C4, witness: the amended retry-path clause at a concrete HEALTHY state with
a persistently failing client: three calls, back-off sleeps `[2, 4]`, final
state FAILED, fallback `"Manual validation needed"` returned. -/
theorem C4_infer_amended_witness :
    call_llm_with_retry { initial_llm_state with status := .healthy }
        (fun _ => none) (fun _ => false) "email_finder" =
      some ⟨"Manual validation needed", false, 0, true,
        { initial_llm_state with status := .failed }, 3, [2, 4]⟩ := by
  have h := (C4_infer_amended { initial_llm_state with status := .healthy }
    "prompt" "email_finder" (fun _ => none) (fun _ => false)).2.2.1
    (by decide) (by decide)
  simpa using h

/-- C5: constructing the service against an unreachable endpoint (every
connection probe fails) never raises — `init_service` is total — and yields
status FAILED; a subsequent `invoke_sync` with category `"email_finder"`
returns `"Manual validation needed"` without touching the client; and for
every state, client outcome and category, `invoke_sync` resolves to either the
stripped client content or the category fallback (the catch-all `except` means
no exception ever propagates). -/
theorem C5_unreachable_endpoint_failed (cfg : OllamaConfig)
    (h : 1 ≤ cfg.max_retries) :
    (init_service (some cfg) true (fun _ => false)).status = .failed ∧
    (∀ prompt,
      invoke_sync (init_service (some cfg) true (fun _ => false)) none
          prompt "email_finder" =
        ⟨"Manual validation needed",
          init_service (some cfg) true (fun _ => false), 0⟩) ∧
    (∀ st client prompt request_type,
      (invoke_sync st client prompt request_type).result =
          fallback_responses request_type ∨
        ∃ c, client = some c ∧
          (invoke_sync st client prompt request_type).result = pyStrip c) := by
  obtain ⟨r, hr⟩ : ∃ r, cfg.max_retries = r + 1 :=
    ⟨cfg.max_retries - 1, (Nat.succ_pred_eq_of_pos h).symm⟩
  have hinit : init_service (some cfg) true (fun _ => false) =
      { initial_llm_state with
        status := .failed
        max_retries := cfg.max_retries
        retry_delay := cfg.retry_delay
        timeout := cfg.timeout } := by
    unfold init_service test_connection
    simp only [if_pos trivial]
    rw [hr, test_connection_go_all_fail]
    simp
  refine ⟨by rw [hinit], ?_, ?_⟩
  · intro prompt
    rw [hinit]
    unfold invoke_sync
    rw [if_pos rfl]
    rfl
  · intro st client prompt request_type
    unfold invoke_sync
    by_cases hf : st.status = .failed
    · rw [if_pos hf]
      exact Or.inl rfl
    · rw [if_neg hf]
      cases client with
      | none => exact Or.inl rfl
      | some c => exact Or.inr ⟨c, rfl, rfl⟩

/-- C5, witness: the FAILED construction and the `"email_finder"` fallback at a
concrete configuration. -/
theorem C5_unreachable_endpoint_witness :
    (init_service (some ⟨"llama3", "http://localhost:11434", 3, 2, 30⟩) true
      (fun _ => false)).status = LLMStatus.failed ∧
    invoke_sync (init_service (some ⟨"llama3", "http://localhost:11434", 3, 2, 30⟩)
        true (fun _ => false)) none "find the email" "email_finder" =
      ⟨"Manual validation needed",
        init_service (some ⟨"llama3", "http://localhost:11434", 3, 2, 30⟩) true
          (fun _ => false), 0⟩ :=
  ⟨(C5_unreachable_endpoint_failed ⟨"llama3", "http://localhost:11434", 3, 2, 30⟩
      (by decide)).1,
    (C5_unreachable_endpoint_failed ⟨"llama3", "http://localhost:11434", 3, 2, 30⟩
      (by decide)).2.1 "find the email"⟩

/-! ## `SearchService` (src/search_service.py)

HTTP transport is an oracle `pages : ℕ → GetOutcome` giving the outcome of the
i-th `session.get` of a search; `urlparse(url).netloc` is the oracle `netloc`.
A raise inside the `try` body is re-wrapped by the handlers at the bottom of
`search_newsdata`: `requests` exceptions become `NetworkError`, every other
exception (including the `AuthenticationError` / `APIServiceError` raised for
4xx statuses) is re-raised as `APIServiceError("NewsData.io search failed:
...")`. -/

/-- `NEWS_API_MAX_RETRIES` from src/constants.py:11. -/
def NEWS_API_MAX_RETRIES : ℕ := 3

/-- The `urllib3` retry policy configured by `_create_session`
(src/search_service.py:33-46). -/
structure RetryConfig where
  total : ℕ
  backoff_factor : ℕ
  status_forcelist : List ℕ
deriving DecidableEq, Repr

/-- `SearchService._create_session`: retry strategy with
`total=NEWS_API_MAX_RETRIES`, `backoff_factor=1` (exponential back-off), and
forcelist `[429, 500, 502, 503, 504]`. -/
def create_session_retry : RetryConfig :=
  ⟨NEWS_API_MAX_RETRIES, 1, [429, 500, 502, 503, 504]⟩

/-- A raw NewsData.io article as read by the per-article `.get` calls
(src/search_service.py:120-152); `none` models a missing key. -/
structure NewsRawArticle where
  link : Option String
  title : Option String
  description : Option String
  source_name : Option String
  source_id : Option String
  content : Option String
  pubDate : Option String
  keywords : Option (List String)
  creator : Option (List String)
  category : Option (List String)
  country : Option (List String)
  language : Option String
  image_url : Option String
  article_id : Option String
deriving DecidableEq, Repr

/-- The standardized article object built in the pagination loop
(src/search_service.py:137-152). -/
structure StdArticle where
  url : String
  title : String
  snippet : String
  source : String
  source_id : String
  content : String
  publishedAt : Option String
  keywords : List String
  creator : List String
  category : List String
  country : List String
  language : String
  image_url : Option String
  article_id : Option String
deriving DecidableEq, Repr

/-- The standardization of one raw article with a present `link`. -/
def standardize (a : NewsRawArticle) (url : String) : StdArticle :=
  { url := url
    title := a.title.getD ""
    snippet := a.description.getD ""
    source := a.source_name.getD (a.source_id.getD "")
    source_id := a.source_id.getD ""
    content := a.content.getD ""
    publishedAt := a.pubDate
    keywords := a.keywords.getD []
    creator := a.creator.getD []
    category := a.category.getD []
    country := a.country.getD []
    language := a.language.getD "english"
    image_url := a.image_url
    article_id := a.article_id }

/-- `parsed_domain[4:] if parsed_domain.startswith("www.") else parsed_domain`. -/
def strip_www (h : String) : String :=
  if h.startsWith "www." then h.drop 4 else h

/-- The domain filter (src/search_service.py:129-134). Python `if domains:` is
falsy for both `None` and the empty list. -/
def domain_rejected (netloc : String → String) (domains : Option (List String))
    (url : String) : Bool :=
  match domains with
  | none => false
  | some ds =>
    if ds = [] then false
    else ¬ (strip_www (pyLower (netloc url)) ∈ ds)

/-- The NewsData.io JSON payload fields read by the loop. -/
structure PagePayload where
  status : String
  message : Option String
  results : List NewsRawArticle
  nextPage : Option String
deriving DecidableEq, Repr

/-- The outcome of one `session.get`: a raised `requests` exception, or a
response with a status code and (for the non-raising path) an optional parsed
JSON payload (`none` models `.json()` raising). -/
inductive GetOutcome where
  | exc (msg : String)
  | resp (status_code : ℕ) (payload : Option PagePayload)
deriving DecidableEq, Repr

/-- A raise escaping the pagination loop, before the handler re-wrapping. -/
inductive PageAbort where
  | reqExc (msg : String)
  | httpErr (code : ℕ)
  | auth (msg : String)
  | api (msg : String)
deriving DecidableEq, Repr

/-- The error surfaced by `search_newsdata` after the `except` handlers. -/
inductive SearchErr where
  | network (msg : String)
  | api (msg : String)
deriving DecidableEq, Repr

/-- The handler re-wrapping (src/search_service.py:166-170): `requests`
exceptions (including the `HTTPError` from `raise_for_status`) become
`NetworkError`; everything else becomes `APIServiceError`. -/
def wrap_error : PageAbort → SearchErr
  | .reqExc m => .network ("NewsData.io request failed: " ++ m)
  | .httpErr c => .network ("NewsData.io request failed: HTTP " ++ toString c)
  | .auth m => .api ("NewsData.io search failed: " ++ m)
  | .api m => .api ("NewsData.io search failed: " ++ m)

/-- The per-page article loop (src/search_service.py:120-154): skip entries
without a `link`, apply the domain filter, stop appending at `num_results`. -/
def aggregate_page (netloc : String → String) (domains : Option (List String))
    (num_results : ℕ) : List StdArticle → List NewsRawArticle → List StdArticle
  | agg, [] => agg
  | agg, a :: rest =>
    if num_results ≤ agg.length then agg
    else
      match a.link with
      | none => aggregate_page netloc domains num_results agg rest
      | some url =>
        if domain_rejected netloc domains url then
          aggregate_page netloc domains num_results agg rest
        else
          aggregate_page netloc domains num_results (agg ++ [standardize a url]) rest

instance instDecidableEqExcept {ε α : Type} [DecidableEq ε] [DecidableEq α] :
    DecidableEq (Except ε α) := fun x y =>
  match x, y with
  | .ok a, .ok b =>
    if h : a = b then isTrue (by rw [h]) else isFalse (by intro he; cases he; exact h rfl)
  | .error a, .error b =>
    if h : a = b then isTrue (by rw [h]) else isFalse (by intro he; cases he; exact h rfl)
  | .ok _, .error _ => isFalse (by intro he; cases he)
  | .error _, .ok _ => isFalse (by intro he; cases he)

/-- Result of the pagination `while` loop: the aggregated articles or an
escaping raise, plus the number of HTTP calls issued. -/
structure LoopResult where
  outcome : Except PageAbort (List StdArticle)
  httpCalls : ℕ
deriving DecidableEq, Repr

/-- The `while len(aggregated) < num_results and page_count < max_pages` loop
(src/search_service.py:86-164), with `remaining = max_pages - page_count` and
`idx` the number of HTTP calls already made. Order of the status checks follows
the source: 429 breaks with the partial aggregate, then 401/403/422 raise, then
`raise_for_status` raises on any remaining `≥ 400` status. -/
def search_loop (pages : ℕ → GetOutcome) (netloc : String → String)
    (domains : Option (List String)) (num_results : ℕ) :
    List StdArticle → ℕ → ℕ → LoopResult
  | agg, _, 0 => ⟨.ok agg, 0⟩
  | agg, idx, rem + 1 =>
    if num_results ≤ agg.length then ⟨.ok agg, 0⟩
    else
      match pages idx with
      | .exc m => ⟨.error (.reqExc m), 1⟩
      | .resp code payload? =>
        if code = 429 then ⟨.ok agg, 1⟩
        else if code = 401 then ⟨.error (.auth "NewsData.io API key invalid or expired"), 1⟩
        else if code = 403 then ⟨.error (.auth "NewsData.io API access forbidden"), 1⟩
        else if code = 422 then ⟨.error (.api "NewsData.io invalid request parameters"), 1⟩
        else if 400 ≤ code then ⟨.error (.httpErr code), 1⟩
        else
          match payload? with
          | none => ⟨.error (.api "invalid JSON"), 1⟩
          | some payload =>
            if payload.status ≠ "success" then
              ⟨.error (.api ("NewsData.io API error: " ++
                payload.message.getD "NewsData.io API error")), 1⟩
            else if payload.results = [] then ⟨.ok agg, 1⟩
            else
              let agg2 := aggregate_page netloc domains num_results agg payload.results
              match payload.nextPage with
              | none => ⟨.ok agg2, 1⟩
              | some _ =>
                let rest := search_loop pages netloc domains num_results agg2 (idx + 1) rem
                ⟨rest.outcome, rest.httpCalls + 1⟩

/-- The service state touched by a search: API key and the daily call counter
against its limit (src/search_service.py:27-31). -/
structure SearchState where
  api_key : Option String
  call_count : ℕ
  call_limit : ℕ
deriving DecidableEq, Repr

/-- The outcome of `search_newsdata`: the returned list or surfaced error, the
call counter afterwards, and the number of HTTP requests issued. -/
structure SearchOutcome where
  result : Except SearchErr (List StdArticle)
  call_count : ℕ
  httpCalls : ℕ
deriving DecidableEq, Repr

/-- `SearchService.search_newsdata` (src/search_service.py:63-175):
`_check_rate_limit` and the API-key check short-circuit to `[]` before the
`try` block (so without incrementing the counter); otherwise the pagination
loop runs with `max_pages = 5` and the `finally` increments `call_count`
exactly once whatever the outcome; a successful run returns
`aggregated[:num_results]`. Python `if not self.api_key` is falsy for both
`None` and the empty string. -/
def search_newsdata (st : SearchState) (pages : ℕ → GetOutcome)
    (netloc : String → String) (query : String) (num_results : ℕ)
    (domains : Option (List String)) : SearchOutcome :=
  if st.call_limit ≤ st.call_count then ⟨.ok [], st.call_count, 0⟩
  else if st.api_key.getD "" = "" then ⟨.ok [], st.call_count, 0⟩
  else
    let run := search_loop pages netloc domains num_results [] 0 5
    match run.outcome with
    | .ok agg => ⟨.ok (agg.take num_results), st.call_count + 1, run.httpCalls⟩
    | .error e => ⟨.error (wrap_error e), st.call_count + 1, run.httpCalls⟩

theorem search_loop_httpCalls_le (pages : ℕ → GetOutcome) (netloc : String → String)
    (domains : Option (List String)) (num_results : ℕ) :
    ∀ (rem : ℕ) (agg : List StdArticle) (idx : ℕ),
      (search_loop pages netloc domains num_results agg idx rem).httpCalls ≤ rem := by
  intro rem
  induction rem with
  | zero => intro agg idx; exact Nat.le_refl 0
  | succ n ih =>
    intro agg idx
    rw [search_loop]
    split
    · exact Nat.zero_le _
    · split
      · exact Nat.le_add_left 1 n
      · split
        · exact Nat.le_add_left 1 n
        · split
          · exact Nat.le_add_left 1 n
          · split
            · exact Nat.le_add_left 1 n
            · split
              · exact Nat.le_add_left 1 n
              · split
                · exact Nat.le_add_left 1 n
                · split
                  · exact Nat.le_add_left 1 n
                  · split
                    · exact Nat.le_add_left 1 n
                    · split
                      · exact Nat.le_add_left 1 n
                      · split
                        · exact Nat.le_add_left 1 n
                        · exact Nat.succ_le_succ (ih _ _)

/-- C6, counterexample: with a call budget of 2 and an endpoint that always
produces a full next page, a single `search_newsdata` issues 5 HTTP requests
(the page cap, not the budget, stops pagination) while the daily counter is
checked once up front and incremented once at the end — refuting "checked
before every API call and incremented exactly once per call" and "no further
HTTP calls once the budget is reached mid-pagination". -/
theorem C6_budget_counterexample :
    (search_newsdata ⟨some "key", 0, 2⟩
        (fun _ => .resp 200 (some ⟨"success", none,
          [⟨some "http://example.com/a", some "T", none, none, none, none, none,
            none, none, none, none, none, none, none⟩], some "tok"⟩))
        (fun _ => "example.com") "q" 10 none).httpCalls = 5 ∧
    (⟨some "key", 0, 2⟩ : SearchState).call_limit = 2 ∧
    (search_newsdata ⟨some "key", 0, 2⟩
        (fun _ => .resp 200 (some ⟨"success", none,
          [⟨some "http://example.com/a", some "T", none, none, none, none, none,
            none, none, none, none, none, none, none⟩], some "tok"⟩))
        (fun _ => "example.com") "q" 10 none).call_count = 1 := by
  exact ⟨by decide, by decide, by decide⟩

/-- C6, amended: the daily counter is checked once per search invocation,
before the first HTTP request — a search starting at or above the limit
short-circuits to an empty result with zero HTTP calls and no increment — and
is incremented exactly once per search that passes the pre-checks, regardless
of the outcome; pagination within one search is bounded by the page cap of 5,
not by the counter. -/
theorem C6_call_budget_amended (st : SearchState) (pages : ℕ → GetOutcome)
    (netloc : String → String) (query : String) (num_results : ℕ)
    (domains : Option (List String)) :
    (st.call_limit ≤ st.call_count →
      search_newsdata st pages netloc query num_results domains =
        ⟨.ok [], st.call_count, 0⟩) ∧
    (st.call_count < st.call_limit → st.api_key.getD "" ≠ "" →
      (search_newsdata st pages netloc query num_results domains).call_count =
        st.call_count + 1 ∧
      (search_newsdata st pages netloc query num_results domains).httpCalls ≤ 5) := by
  constructor
  · intro h
    unfold search_newsdata
    rw [if_pos h]
  · intro hrate hkey
    unfold search_newsdata
    rw [if_neg (Nat.not_le.mpr hrate), if_neg hkey]
    have hle := search_loop_httpCalls_le pages netloc domains num_results 5 [] 0
    cases hout : (search_loop pages netloc domains num_results [] 0 5).outcome with
    | ok agg =>
      simp only [hout]
      exact ⟨trivial, hle⟩
    | error e =>
      simp only [hout]
      exact ⟨trivial, hle⟩

/-- C6, witness: the amended increment clause at a budget-passing state whose
first page is rate-limited. -/
theorem C6_call_budget_amended_witness :
    (search_newsdata ⟨some "key", 0, 50⟩ (fun _ => .resp 429 none)
        (fun _ => "") "q" 10 none).call_count = 0 + 1 ∧
    (search_newsdata ⟨some "key", 0, 50⟩ (fun _ => .resp 429 none)
        (fun _ => "") "q" 10 none).httpCalls ≤ 5 :=
  (C6_call_budget_amended ⟨some "key", 0, 50⟩ (fun _ => .resp 429 none)
    (fun _ => "") "q" 10 none).2 (by decide) (by decide)

/-- C8: the HTTP error policy of a paginated search. 401 and 403 abort the
whole search as permanent authentication/authorization failures (surfaced
through the catch-all handler as `APIServiceError` carrying the auth message);
422 aborts as a permanent bad-request failure; a 429 at any point stops
pagination but returns the articles aggregated so far; any other `≥ 500`
status raises through `raise_for_status` and surfaces as a `NetworkError`,
after the transport layer's own retry policy — configured by `_create_session`
as `total = NEWS_API_MAX_RETRIES = 3` retries with `backoff_factor = 1`
(exponential back-off) over the forcelist `[429, 500, 502, 503, 504]` — is
exhausted. -/
theorem C8_http_error_policy (st : SearchState) (pages : ℕ → GetOutcome)
    (netloc : String → String) (query : String) (num_results : ℕ)
    (domains : Option (List String))
    (hrate : st.call_count < st.call_limit) (hkey : st.api_key.getD "" ≠ "")
    (hnum : 0 < num_results) :
    (∀ p, pages 0 = .resp 401 p →
      search_newsdata st pages netloc query num_results domains =
        ⟨.error (.api "NewsData.io search failed: NewsData.io API key invalid or expired"),
          st.call_count + 1, 1⟩) ∧
    (∀ p, pages 0 = .resp 403 p →
      search_newsdata st pages netloc query num_results domains =
        ⟨.error (.api "NewsData.io search failed: NewsData.io API access forbidden"),
          st.call_count + 1, 1⟩) ∧
    (∀ p, pages 0 = .resp 422 p →
      search_newsdata st pages netloc query num_results domains =
        ⟨.error (.api "NewsData.io search failed: NewsData.io invalid request parameters"),
          st.call_count + 1, 1⟩) ∧
    (∀ (agg : List StdArticle) (idx rem : ℕ) p, agg.length < num_results →
      pages idx = .resp 429 p →
        search_loop pages netloc domains num_results agg idx (rem + 1) =
          ⟨.ok agg, 1⟩) ∧
    (∀ p code, pages 0 = .resp code p → 500 ≤ code →
      search_newsdata st pages netloc query num_results domains =
        ⟨.error (.network ("NewsData.io request failed: HTTP " ++ toString code)),
          st.call_count + 1, 1⟩) ∧
    create_session_retry = ⟨3, 1, [429, 500, 502, 503, 504]⟩ := by
  have hempty : ¬ num_results ≤ ([] : List StdArticle).length := by
    simp only [List.length_nil]
    omega
  refine ⟨?_, ?_, ?_, ?_, ?_, rfl⟩
  · intro p hp
    have hloop : search_loop pages netloc domains num_results [] 0 5 =
        ⟨.error (.auth "NewsData.io API key invalid or expired"), 1⟩ := by
      rw [search_loop, if_neg hempty, hp]
      rfl
    unfold search_newsdata
    rw [if_neg (Nat.not_le.mpr hrate), if_neg hkey]
    simp only [hloop]
    rfl
  · intro p hp
    have hloop : search_loop pages netloc domains num_results [] 0 5 =
        ⟨.error (.auth "NewsData.io API access forbidden"), 1⟩ := by
      rw [search_loop, if_neg hempty, hp]
      rfl
    unfold search_newsdata
    rw [if_neg (Nat.not_le.mpr hrate), if_neg hkey]
    simp only [hloop]
    rfl
  · intro p hp
    have hloop : search_loop pages netloc domains num_results [] 0 5 =
        ⟨.error (.api "NewsData.io invalid request parameters"), 1⟩ := by
      rw [search_loop, if_neg hempty, hp]
      rfl
    unfold search_newsdata
    rw [if_neg (Nat.not_le.mpr hrate), if_neg hkey]
    simp only [hloop]
    rfl
  · intro agg idx rem p hlen hp
    rw [search_loop, if_neg (Nat.not_le.mpr hlen), hp]
    rfl
  · intro p code hp hcode
    have hloop : search_loop pages netloc domains num_results [] 0 5 =
        ⟨.error (.httpErr code), 1⟩ := by
      rw [search_loop, if_neg hempty, hp]
      show (if code = 429 then (⟨.ok [], 1⟩ : LoopResult)
        else if code = 401 then
          ⟨.error (.auth "NewsData.io API key invalid or expired"), 1⟩
        else if code = 403 then
          ⟨.error (.auth "NewsData.io API access forbidden"), 1⟩
        else if code = 422 then
          ⟨.error (.api "NewsData.io invalid request parameters"), 1⟩
        else if 400 ≤ code then ⟨.error (.httpErr code), 1⟩
        else _) = _
      rw [if_neg (by omega), if_neg (by omega), if_neg (by omega),
        if_neg (by omega), if_pos (by omega)]
    unfold search_newsdata
    rw [if_neg (Nat.not_le.mpr hrate), if_neg hkey]
    simp only [hloop]
    rfl

/-- C8, witness: the 401 clause at a concrete state and page oracle. -/
theorem C8_http_error_policy_witness :
    search_newsdata ⟨some "key", 0, 50⟩ (fun _ => .resp 401 none)
        (fun _ => "") "q" 10 none =
      ⟨.error (.api "NewsData.io search failed: NewsData.io API key invalid or expired"),
        0 + 1, 1⟩ :=
  (C8_http_error_policy ⟨some "key", 0, 50⟩ (fun _ => .resp 401 none)
    (fun _ => "") "q" 10 none (by decide) (by decide) (by decide)).1 none rfl

/-! ## `ScrapingService` (src/scraping_service.py)

`urlparse` output is modelled as a `Url` record, the robots.txt fetch and its
stdlib `RobotFileParser` as a `RobotsFetch` oracle whose parsed body denotes a
policy function, and the page fetch plus BeautifulSoup extraction as oracles.
The `ScrapingError` raised for an invalid or disallowed URL is the "not-found"
outcome: the caller (`process_article`) catches it and gets no content. -/

/-- `SCRAPING_MAX_RETRIES` from src/constants.py:17. -/
def SCRAPING_MAX_RETRIES : ℕ := 3

/-- The parts of `urlparse(url)` the service reads. -/
structure Url where
  scheme : String
  netloc : String
  path : String
deriving DecidableEq, Repr

/-- `ScrapingService.is_valid_url` (src/scraping_service.py:45-57):
`all([result.scheme, result.netloc])` and scheme in `{http, https}`. -/
def is_valid_url (u : Url) : Bool :=
  decide (u.scheme ≠ "" ∧ u.netloc ≠ "" ∧ (u.scheme = "http" ∨ u.scheme = "https"))

/-- Outcome of the robots.txt retrieval: a raised exception, or a response
whose parsed body (via `RobotFileParser.can_fetch "*"`) denotes `policy`. -/
inductive RobotsFetch where
  | exc (msg : String)
  | resp (status_code : ℕ) (policy : Url → Bool)

/-- `ScrapingService.can_scrape` (src/scraping_service.py:59-90): invalid URLs
are never scrapeable; a 200 robots.txt is parsed and consulted; any other
status or a raised exception fails open (assume allowed). -/
def can_scrape (u : Url) (robots : RobotsFetch) : Bool :=
  if ¬ is_valid_url u then false
  else
    match robots with
    | .exc _ => true
    | .resp code policy => if code = 200 then policy u else true

/-- Outcome of one page `session.get` (+ `raise_for_status`): a `requests`
exception, another exception, or the response HTML. -/
inductive FetchOutcome where
  | reqExc (msg : String)
  | otherExc (msg : String)
  | ok (html : String)

/-- The raises of `scrape_url_content`. -/
inductive ScrapeErr where
  | invalidUrl (msg : String)
  | robotsDisallowed (msg : String)
  | network (msg : String)
  | scraping (msg : String)
deriving DecidableEq, Repr

/-- The `{"content": ..., "title": ..., "url": ...}` dict returned on
success. -/
structure ScrapedPage where
  content : String
  title : String
  url : Url
deriving DecidableEq, Repr

/-- Result of `scrape_url_content`, with the number of robots.txt and page
fetch attempts and the back-off sleeps performed. -/
structure ScrapeResult where
  result : Except ScrapeErr (Option ScrapedPage)
  robotsFetches : ℕ
  pageFetches : ℕ
  sleeps : List ℕ

/-- The `for attempt in range(SCRAPING_MAX_RETRIES)` loop of
`scrape_url_content` (src/scraping_service.py:120-155): a successful fetch
with more than 100 characters of extracted text returns the page; less returns
`None` without further retries; a `requests` exception sleeps `2^attempt` and
retries, raising `NetworkError` on the last attempt; any other exception
raises `ScrapingError` at once. -/
def scrape_loop (u : Url) (fetch : ℕ → FetchOutcome) (extract : String → String)
    (titleOf : String → Option String) :
    ℕ → ℕ → Except ScrapeErr (Option ScrapedPage) × ℕ × List ℕ
  | _, 0 => (.ok none, 0, [])
  | attempt, r + 1 =>
    match fetch attempt with
    | .ok html =>
      let text := extract html
      if text ≠ "" ∧ 100 < text.length then
        (.ok (some ⟨text, (titleOf html).getD "No title", u⟩), 1, [])
      else
        (.ok none, 1, [])
    | .reqExc m =>
      if r = 0 then
        (.error (.network ("Failed to scrape after " ++
          toString SCRAPING_MAX_RETRIES ++ " attempts: " ++ m)), 1, [])
      else
        let rest := scrape_loop u fetch extract titleOf (attempt + 1) r
        (rest.1, rest.2.1 + 1, 2 ^ attempt :: rest.2.2)
    | .otherExc m => (.error (.scraping ("Unexpected error scraping: " ++ m)), 1, [])

/-- `ScrapingService.scrape_url_content` (src/scraping_service.py:112-155):
raise `ScrapingError` on an invalid URL before any network activity; raise
`ScrapingError` on a robots.txt disallow after only the robots fetch; then run
the bounded retry loop. -/
def scrape_url_content (u : Url) (robots : RobotsFetch) (fetch : ℕ → FetchOutcome)
    (extract : String → String) (titleOf : String → Option String) : ScrapeResult :=
  if ¬ is_valid_url u then
    ⟨.error (.invalidUrl "Invalid URL format"), 0, 0, []⟩
  else if ¬ can_scrape u robots then
    ⟨.error (.robotsDisallowed "Scraping not allowed for URL"), 1, 0, []⟩
  else
    let res := scrape_loop u fetch extract titleOf 0 SCRAPING_MAX_RETRIES
    ⟨res.1, 1, res.2.1, res.2.2⟩

/-- C7: a syntactically invalid URL or a crawl-policy disallow makes
`scrape_url_content` return not-found (an error outcome, no content) with zero
fetches of the page itself — an invalid URL even before the robots fetch — and
when the robots.txt cannot be retrieved (exception or non-200 status), fetching
defaults to permitted (fail open). -/
theorem C7_precondition_gating (u : Url) (robots : RobotsFetch)
    (fetch : ℕ → FetchOutcome) (extract : String → String)
    (titleOf : String → Option String) :
    (is_valid_url u = false →
      scrape_url_content u robots fetch extract titleOf =
        ⟨.error (.invalidUrl "Invalid URL format"), 0, 0, []⟩) ∧
    (can_scrape u robots = false →
      (scrape_url_content u robots fetch extract titleOf).pageFetches = 0 ∧
      ∃ e, (scrape_url_content u robots fetch extract titleOf).result = .error e) ∧
    (∀ msg, robots = .exc msg → is_valid_url u = true →
      can_scrape u robots = true) ∧
    (∀ code policy, robots = .resp code policy → code ≠ 200 →
      is_valid_url u = true → can_scrape u robots = true) := by
  refine ⟨?_, ?_, ?_, ?_⟩
  · intro hinv
    unfold scrape_url_content
    rw [if_pos (by simp [hinv])]
  · intro hcan
    by_cases hinv : is_valid_url u = true
    · have hnv : ¬ ¬ is_valid_url u = true := not_not_intro hinv
      unfold scrape_url_content
      rw [if_neg hnv, if_pos (by simp [hcan])]
      exact ⟨rfl, ⟨_, rfl⟩⟩
    · have hinv' : is_valid_url u = false := by
        cases h : is_valid_url u
        · rfl
        · exact absurd h hinv
      unfold scrape_url_content
      rw [if_pos (by simp [hinv'])]
      exact ⟨rfl, ⟨_, rfl⟩⟩
  · intro msg hr hvalid
    unfold can_scrape
    rw [if_neg (not_not_intro hvalid), hr]
  · intro code policy hr hcode hvalid
    unfold can_scrape
    rw [if_neg (not_not_intro hvalid), hr]
    show (if code = 200 then policy u else true) = true
    rw [if_neg hcode]

/-- C7, witness: a robots.txt disallow at a concrete URL gives an error result
and zero page fetches. -/
theorem C7_precondition_gating_witness :
    (scrape_url_content ⟨"http", "example.com", "/a"⟩
        (.resp 200 (fun _ => false)) (fun _ => .ok "") (fun s => s)
        (fun _ => none)).pageFetches = 0 ∧
    ∃ e, (scrape_url_content ⟨"http", "example.com", "/a"⟩
        (.resp 200 (fun _ => false)) (fun _ => .ok "") (fun s => s)
        (fun _ => none)).result = .error e :=
  (C7_precondition_gating ⟨"http", "example.com", "/a"⟩
    (.resp 200 (fun _ => false)) (fun _ => .ok "") (fun s => s)
    (fun _ => none)).2.1 (by rfl)

/-! ## `SignalProcessor` (src/signal_processor.py)

`invoke_sync` on the injected LLM service is the oracle
`String → String → String` (prompt, request type ↦ returned text); the
scraping service is an oracle from a URL string to its raised/None/content
outcome; `dateutil` parsing is an oracle; `datetime.now()` is the `today`
parameter. -/

/-- Python `sub in s` on strings. -/
def pyContains (s sub : String) : Bool := containsSub s.data sub.data

/-- Python `s[:n]`: the first `n` characters. Realized over the character
list so concrete runs reduce structurally. -/
def pySlice (s : String) (n : ℕ) : String := ⟨s.data.take n⟩

/-- The company-extraction prompt (src/signal_processor.py:98-102). -/
def companyPrompt (text : String) : String :=
  "Extract the company name from this text. Return only the company name, nothing else.\n\nText: "
    ++ pySlice text 500 ++ "\n\nCompany name:"

/-- The person-extraction prompt (src/signal_processor.py:125-129). -/
def personPrompt (text : String) : String :=
  "Extract the person\x27s name (CHRO, HR leader, or executive) from this text. Return only the full name, nothing else.\n\nText: "
    ++ pySlice text 500 ++ "\n\nPerson name:"

/-- The email-guess prompt (src/signal_processor.py:150-160). -/
def emailPrompt (company person : String) : String :=
  "Given company \x27" ++ company ++ "\x27 and person \x27" ++ person
    ++ "\x27, suggest the most likely email format.\n\nReturn ONLY the email address in this format: firstname.lastname@company.com\n\nExamples:\n- Company: Google, Person: John Smith → john.smith@google.com\n- Company: Microsoft, Person: Jane Doe → jane.doe@microsoft.com\n\nCompany: "
    ++ company ++ "\nPerson: " ++ person ++ "\nEmail:"

/-- `SignalProcessor.extract_company_name` (src/signal_processor.py:86-111):
reject short text, fall back to `None` without an LLM service, and accept a
truthy response that is not the generic fallback sentinel, stripped. -/
def extract_company_name (llm : Option (String → String → String))
    (text : String) : Option String :=
  if text = "" ∨ text.length < 10 then none
  else
    match llm with
    | none => none
    | some f =>
      let response := f (companyPrompt text) "company_extraction"
      if response ≠ "" ∧ response ≠ "Service temporarily unavailable" then
        some (pyStrip response)
      else none

/-- `SignalProcessor.extract_person_name` (src/signal_processor.py:113-138). -/
def extract_person_name (llm : Option (String → String → String))
    (text : String) : Option String :=
  if text = "" ∨ text.length < 10 then none
  else
    match llm with
    | none => none
    | some f =>
      let response := f (personPrompt text) "person_extraction"
      if response ≠ "" ∧ response ≠ "Service temporarily unavailable" then
        some (pyStrip response)
      else none

/-- Character class `[a-zA-Z0-9._%+-]` of the email regex. -/
def emailLocalChar (c : Char) : Bool :=
  c.isAlpha || c.isDigit || c = '.' || c = '_' || c = '%' || c = '+' || c = '-'

/-- Character class `[a-zA-Z0-9.-]` of the email regex. -/
def emailDomainChar (c : Char) : Bool :=
  c.isAlpha || c.isDigit || c = '.' || c = '-'

/-- `SignalProcessor._is_valid_email` (src/signal_processor.py:180-186): the
regex `^[a-zA-Z0-9._%+-]+@[a-zA-Z0-9.-]+\.[a-zA-Z]{2,}$` as an executable
check — exactly one `@`; a non-empty local part over its class; a domain that
splits on `.` into at least two parts with a non-empty pre-TLD portion over
its class and an alphabetic TLD of length at least 2. -/
def is_valid_email (email : String) : Bool :=
  match email.splitOn "@" with
  | [localPart, domain] =>
    localPart ≠ "" && localPart.data.all emailLocalChar &&
      domain.data.all emailDomainChar &&
      (match (domain.splitOn ".").reverse with
       | tld :: restRev =>
         (2 ≤ tld.length && tld.data.all Char.isAlpha) &&
           restRev ≠ [] && String.intercalate "." restRev.reverse ≠ ""
       | [] => false)
  | _ => false

/-- `SignalProcessor.extract_email` (src/signal_processor.py:140-178). -/
def extract_email (llm : Option (String → String → String))
    (company person : String) : String :=
  if company = "" ∨ person = "" ∨ pyLower person = "unknown" then
    "Manual validation needed"
  else
    match llm with
    | none => "Manual validation needed"
    | some f =>
      let response := f (emailPrompt company person) "email_finder"
      if response ≠ "" ∧ response ≠ "Service temporarily unavailable" ∧
          pyContains response "@" then
        let email := pyStrip ((response.splitOn "\n").getLastD "")
        if pyContains email "@" ∧ pyContains email "." ∧ is_valid_email email then
          email
        else "Manual validation needed"
      else "Manual validation needed"

/-- `SignalProcessor.parse_article_date` (src/signal_processor.py:188-199):
empty input is `None`; otherwise the `dateutil` oracle gives either the
`YYYY-MM-DD` rendering or `None` on a parse failure. -/
def parse_article_date (parseDate : String → Option String)
    (date_str : String) : Option String :=
  if date_str = "" then none else parseDate date_str

/-- The dict fields of a search-result article read by `process_article`. -/
structure ArticleDict where
  title : Option String
  url : Option String
  publishedAt : Option String
  content : Option String
  source : Option String
deriving DecidableEq, Repr

/-- `SignalProcessor.process_article` (src/signal_processor.py:201-272). The
scraping oracle returns the raised/None/content outcome of
`scrape_url_content(url)`; note that a `None` from the scraper leaves the
content empty (only a raise falls back to the article's own content). The
final construction goes through the validating constructor inside the
catch-all `try`, so an invariant violation yields `none`, never a crash. -/
def process_article (llm : Option (String → String → String))
    (scraping : Option (String → Except String (Option String)))
    (parseDate : String → Option String) (today : String)
    (article : ArticleDict) (signal_type : ℤ) : Option Opportunity :=
  let title := article.title.getD ""
  let url := article.url.getD ""
  let date := article.publishedAt.getD ""
  if title = "" ∨ url = "" then none
  else
    let content :=
      match scraping with
      | some scrape =>
        match scrape url with
        | .ok (some c) => c
        | .ok none => ""
        | .error _ => article.content.getD ""
      | none => article.content.getD ""
    if content = "" then none
    else
      match extract_company_name llm content with
      | none => none
      | some company =>
        if company = "" then none
        else
          let person? := extract_person_name llm content
          let relevance_score := calculate_relevance_score content DEFAULT_KEYWORDS
          if relevance_score < 7/10 then none
          else
            let email :=
              match person? with
              | some p => if p ≠ "" ∧ p ≠ "Unknown" then extract_email llm company p
                          else "Manual validation needed"
              | none => "Manual validation needed"
            let person :=
              match person? with
              | some p => if p = "" then "Unknown" else p
              | none => "Unknown"
            match mkOpportunity title company person email url
                ((parse_article_date parseDate date).getD today)
                (pySlice content 1000) relevance_score signal_type
                (article.source.getD "Unknown") with
            | .ok o => some o
            | .error _ => none

/-- `SignalProcessor.generate_queries` (src/signal_processor.py:27-63): the
static per-signal query table, defaulting to signal 1's queries. -/
def generate_queries (signal_id : ℤ) : List String :=
  if signal_id = 1 then
    ["HR technology evaluation software solutions",
     "HR tech assessment tools",
     "human resources technology evaluation"]
  else if signal_id = 2 then
    ["new CHRO chief human resources officer appointed",
     "new HR director hired",
     "chief people officer appointment"]
  else if signal_id = 3 then
    ["HR tech content website blog",
     "human resources technology insights",
     "HR software case studies"]
  else if signal_id = 4 then
    ["HR system migration technology change",
     "workday implementation project",
     "HR tech stack transition"]
  else if signal_id = 5 then
    ["company expansion growth hiring HR",
     "startup funding HR technology",
     "HR tech investment announcement"]
  else if signal_id = 6 then
    ["HR team hiring downsizing restructuring",
     "human resources job openings",
     "HR director recruitment"]
  else
    ["HR technology evaluation software solutions",
     "HR tech assessment tools",
     "human resources technology evaluation"]

/-- `SignalProcessor.process_signal` (src/signal_processor.py:274-308): gather
articles from each query (each search asking for
`max_results // len(queries)` results), then process them in order, keeping
the successful extractions. The `if not all_articles: return []` early exit
coincides with the general path. No sorting happens here. -/
def process_signal (llm : Option (String → String → String))
    (search : Option (String → ℕ → List ArticleDict))
    (scraping : Option (String → Except String (Option String)))
    (parseDate : String → Option String) (today : String)
    (signal_id : ℤ) (max_results : ℕ) : List Opportunity :=
  let queries := generate_queries signal_id
  let all_articles :=
    match search with
    | some s => (queries.map (fun q => s q (max_results / queries.length))).flatten
    | none => []
  all_articles.filterMap
    (fun a => process_article llm scraping parseDate today a signal_id)

/-! ### The C9 scenario: three articles for signal 1, relevance 0.4 / 0.7 / 0.9 -/

/-- Scenario LLM: extracts a company name from each of the three article
bodies; person extraction finds nobody. -/
def sig1LLM : String → String → String := fun prompt rtype =>
  if rtype = "company_extraction" then
    if prompt = companyPrompt "CHRO meets CHRO today" then "Alpha LLC"
    else if prompt = companyPrompt "CHRO studies HR tech and HR tech" then "Beta Corp"
    else if prompt = companyPrompt "CHRO likes HR tech and employee engagement" then "Gamma Inc"
    else ""
  else ""

/-- Scenario search: the first signal-1 query returns the three articles, in
this arrival order — relevance 0.4, then 0.7, then 0.9. -/
def sig1Search : String → ℕ → List ArticleDict := fun q _ =>
  if q = "HR technology evaluation software solutions" then
    [⟨some "Eval roundup A", some "http://news.example/1", none,
       some "CHRO meets CHRO today", some "NewsSite"⟩,
     ⟨some "Eval roundup B", some "http://news.example/2", none,
       some "CHRO studies HR tech and HR tech", some "NewsSite"⟩,
     ⟨some "Eval roundup C", some "http://news.example/3", none,
       some "CHRO likes HR tech and employee engagement", some "NewsSite"⟩]
  else []


set_option maxRecDepth 4000 in
unseal Rat.add Rat.mul Rat.inv in
/-- C9, counterexample: in the 3-article scenario (two qualifying articles
with relevance 0.7 and 0.9 arriving in that order, one article with relevance
0.4), `process_signal` does return exactly two opportunities, but their scores
come back `[0.7, 0.9]` — increasing, not "ordered by descending
relevance_score": `process_signal` performs no sort. -/
theorem C9_process_signal_counterexample :
    ((process_signal (some sig1LLM) (some sig1Search) none (fun _ => none)
        "2026-10-12" 1 10).map (fun o => o.relevance_score) = [7/10, 9/10]) ∧
      ¬ ((9 : ℚ)/10 ≤ 7/10) := by
  exact ⟨by decide, by decide⟩

set_option maxRecDepth 4000 in
unseal Rat.add Rat.mul Rat.inv in
/-- C9, amended: in the scenario, `process_signal` returns exactly the two
qualifying opportunities (relevance ≥ 0.7 with an extractable company), in
article-arrival order; the 0.4-relevance article is dropped. The output is
descending in relevance only when the articles happen to arrive that way. -/
theorem C9_process_signal_amended :
    process_signal (some sig1LLM) (some sig1Search) none (fun _ => none)
        "2026-10-12" 1 10 =
      [⟨"Eval roundup B", "Beta Corp", "Unknown", "Manual validation needed",
         "http://news.example/2", "2026-10-12",
         "CHRO studies HR tech and HR tech", 7/10, 1, "NewsSite"⟩,
       ⟨"Eval roundup C", "Gamma Inc", "Unknown", "Manual validation needed",
         "http://news.example/3", "2026-10-12",
         "CHRO likes HR tech and employee engagement", 9/10, 1, "NewsSite"⟩] := by
  decide
